import Mathlib

/-!
Shallow embedding of the metlev-engine program (programs/metlev-engine/src).

Machine integers are modelled as `Nat` (for u64/u16/u8/u128 values) and `Int`
(for i64 timestamps), with explicit bounds checks mirroring the checked,
saturating and wrapping operations the Rust source uses.  Fallible Rust code
(`Result<T>`) becomes `Except ProtocolError T`.  Solana host effects (account
loading, CPIs into the token program and the Meteora DLMM program) are not
ledger code of this repository; where a modelled operation interacts with
them, the doc comment of the definition says exactly what is assumed.

The source tree interleaves superseded iterations of the same instruction
(for example a dual-asset `LendingVault` whose methods read the single-asset
fields, and a dual-asset `LpPosition` next to the single-asset `supply`
and `withdraw` instructions).  Following the design document, the single
coherent single-asset version is the one embedded here: the field set used
by `initialize.rs`, `supply.rs`, `withdraw.rs`, `open_position.rs`,
`close_position.rs` and `liquidate.rs`.
-/

namespace Metlev

/-- Maximum value of a u64. -/
def u64Max : Nat := 2 ^ 64 - 1

/-- Maximum value of a u128. -/
def u128Max : Nat := 2 ^ 128 - 1

/-- Maximum value of an i64. -/
def i64Max : Int := 2 ^ 63 - 1

/-- Minimum value of an i64. -/
def i64Min : Int := -(2 ^ 63)

/-- Rust u64 checked_add: `some` of the sum when it fits in u64, else `none`. -/
def checked_add (a b : Nat) : Option Nat :=
  if a + b ≤ u64Max then some (a + b) else none

/-- Rust u64 checked_sub: `some` of the difference when `b ≤ a`, else `none`. -/
def checked_sub (a b : Nat) : Option Nat :=
  if b ≤ a then some (a - b) else none

/-- Rust u64 checked_mul: `some` of the product when it fits in u64, else `none`. -/
def checked_mul (a b : Nat) : Option Nat :=
  if a * b ≤ u64Max then some (a * b) else none

/-- Rust u64 checked_div: division is only undefined for divisor 0. -/
def checked_div (a b : Nat) : Option Nat :=
  if b = 0 then none else some (a / b)

/-- Rust u64 saturating_sub on Nat is Nat subtraction. -/
def saturating_sub (a b : Nat) : Nat := a - b

/-- Rust u64 saturating_add clamps at the u64 maximum. -/
def saturating_add (a b : Nat) : Nat := min (a + b) u64Max

/-- Rust u128 saturating_mul clamps at the u128 maximum. -/
def saturating_mul_u128 (a b : Nat) : Nat := min (a * b) u128Max

/-- Rust i64 saturating_sub clamps the exact difference into the i64 range. -/
def i64_saturating_sub (a b : Int) : Int := max i64Min (min i64Max (a - b))

/-- Rust `u64 as i64` cast: wraps modulo 2^64 into the signed range. -/
def u64_as_i64 (a : Nat) : Int := ((((a + 2 ^ 63) % 2 ^ 64 : Nat)) : Int) - 2 ^ 63

/-- Error codes of programs/metlev-engine/src/errors.rs (ProtocolError).
`accountDeserializeFailed` additionally stands for the Anchor-level error a
failing `try_borrow_data`/`try_deserialize` raises in `read_oracle_price`;
it is distinct from every ProtocolError variant, which is all the claims
need of it. -/
inductive ProtocolError
  | ProtocolPaused
  | Unauthorized
  | InvalidCollateralType
  | InsufficientCollateral
  | ExceedsMaxLTV
  | NotLiquidatable
  | PositionNotActive
  | PositionHealthy
  | InsufficientLiquidity
  | OracleStale
  | OraclePriceUnavailable
  | MathOverflow
  | MathUnderflow
  | InvalidAmount
  | InvalidLiquidationThreshold
  | InvalidOwner
  | InvalidMeteoraPosition
  | RepaymentFailed
  | WithdrawalFailed
  | BadDebt
  | accountDeserializeFailed
  deriving Repr, DecidableEq

/-- LendingVault of state/lending_vault.rs, in the coherent single-asset form
its methods and initialize.rs use (`total_supplied`, `total_borrowed`).
Pubkeys are modelled as Nat; the PDA bump seeds are host wiring and carry no
program logic, so they are omitted. -/
structure LendingVault where
  authority : Nat
  total_supplied : Nat
  total_borrowed : Nat
  interest_rate_bps : Nat
  last_update : Int
  deriving Repr, DecidableEq

/-- LendingVault::available_liquidity: total_supplied.saturating_sub(total_borrowed). -/
def LendingVault.available_liquidity (v : LendingVault) : Nat :=
  saturating_sub v.total_supplied v.total_borrowed

/-- LendingVault::can_borrow: available_liquidity() >= amount. -/
def LendingVault.can_borrow (v : LendingVault) (amount : Nat) : Bool :=
  v.available_liquidity ≥ amount

/-- LendingVault::borrow: require can_borrow (else InsufficientLiquidity),
then total_borrowed.checked_add(amount) (else MathOverflow). -/
def LendingVault.borrow (v : LendingVault) (amount : Nat) :
    Except ProtocolError LendingVault :=
  if v.can_borrow amount then
    match checked_add v.total_borrowed amount with
    | some b => .ok { v with total_borrowed := b }
    | none => .error .MathOverflow
  else
    .error .InsufficientLiquidity

/-- LendingVault::repay: total_borrowed.checked_sub(amount).  The source maps
a failed subtraction to MathOverflow (not MathUnderflow). -/
def LendingVault.repay (v : LendingVault) (amount : Nat) :
    Except ProtocolError LendingVault :=
  match checked_sub v.total_borrowed amount with
  | some b => .ok { v with total_borrowed := b }
  | none => .error .MathOverflow

/-- PositionStatus of state/position.rs. -/
inductive PositionStatus
  | Active
  | Closed
  | Liquidated
  deriving Repr, DecidableEq

/-- Position of state/position.rs.  Pubkeys are modelled as Nat
(`Pubkey::default()` becomes 0); the bump seed is host wiring and omitted. -/
structure Position where
  owner : Nat
  collateral_mint : Nat
  collateral_amount : Nat
  debt_amount : Nat
  meteora_position : Nat
  created_at : Int
  status : PositionStatus
  deriving Repr, DecidableEq

/-- Position::is_active. -/
def Position.is_active (p : Position) : Bool :=
  p.status = PositionStatus.Active

/-- Position::is_closed: Closed or Liquidated. -/
def Position.is_closed (p : Position) : Bool :=
  p.status = PositionStatus.Closed ∨ p.status = PositionStatus.Liquidated

/-- Position::mark_closed. -/
def Position.mark_closed (p : Position) : Position :=
  { p with status := .Closed }

/-- Position::mark_liquidated. -/
def Position.mark_liquidated (p : Position) : Position :=
  { p with status := .Liquidated }

/-- Config of state/config.rs (bump omitted). -/
structure Config where
  authority : Nat
  paused : Bool
  deriving Repr, DecidableEq

/-- CollateralConfig of state/config.rs, plus the `decimals` field that
register_collateral.rs, open_position.rs and liquidate.rs read (the struct
declaration in config.rs is the superseded iteration without it).  Bump
omitted. -/
structure CollateralConfig where
  mint : Nat
  oracle : Nat
  max_ltv : Nat
  liquidation_threshold : Nat
  liquidation_penalty : Nat
  min_deposit : Nat
  interest_rate_bps : Nat
  oracle_max_age : Nat
  decimals : Nat
  enabled : Bool
  deriving Repr, DecidableEq

/-- CollateralConfig::validate_ltv: ltv <= max_ltv. -/
def CollateralConfig.validate_ltv (c : CollateralConfig) (ltv : Nat) : Bool :=
  ltv ≤ c.max_ltv

/-- CollateralConfig::is_liquidatable: ltv >= liquidation_threshold. -/
def CollateralConfig.is_liquidatable (c : CollateralConfig) (ltv : Nat) : Bool :=
  ltv ≥ c.liquidation_threshold

/-- CollateralConfig::validate_thresholds: liquidation_threshold > max_ltv. -/
def CollateralConfig.validate_thresholds (c : CollateralConfig) : Bool :=
  c.liquidation_threshold > c.max_ltv

/-- MockOracle of state/mock_oracle.rs (bump omitted). -/
structure MockOracle where
  authority : Nat
  price : Nat
  decimals : Nat
  timestamp : Int
  deriving Repr, DecidableEq

/-- LpPosition of state/lp_position.rs, in the coherent single-asset form the
supply.rs / withdraw.rs instructions use (`supplied_amount`,
`interest_earned`); bump omitted. -/
structure LpPosition where
  lp : Nat
  supplied_amount : Nat
  interest_earned : Nat
  last_update : Int
  deriving Repr, DecidableEq

/-- LpPosition::accrue_interest: elapsed = max(now - last_update, 0) as u128;
interest = supplied * rate_bps * elapsed / (365*24*3600*10000) with u128
saturating multiplication, then truncated `as u64` and saturating-added to
interest_earned; last_update advanced. -/
def LpPosition.accrue_interest (p : LpPosition) (interest_rate_bps : Nat)
    (current_time : Int) : LpPosition :=
  let elapsed : Nat := (max (current_time - p.last_update) 0).toNat
  let interest : Nat :=
    saturating_mul_u128 (saturating_mul_u128 p.supplied_amount interest_rate_bps) elapsed /
      (365 * 24 * 3600 * 10000)
  { p with
    interest_earned := saturating_add p.interest_earned (interest % 2 ^ 64)
    last_update := current_time }

/-- LpPosition::claimable: supplied_amount.saturating_add(interest_earned). -/
def LpPosition.claimable (p : LpPosition) : Nat :=
  saturating_add p.supplied_amount p.interest_earned

/-- calculate_ltv of utils/health.rs: InvalidAmount when collateral_value = 0,
else debt_value.checked_mul(10000).checked_div(collateral_value), with a
failed multiplication reported as MathOverflow. -/
def calculate_ltv (collateral_value debt_value : Nat) : Except ProtocolError Nat :=
  if collateral_value = 0 then
    .error .InvalidAmount
  else
    match (checked_mul debt_value 10000).bind (fun v => checked_div v collateral_value) with
    | some ltv => .ok ltv
    | none => .error .MathOverflow

/-- calculate_health_factor of utils/health.rs: u64::MAX when debt_value = 0,
else collateral_value.checked_mul(10000).checked_div(debt_value). -/
def calculate_health_factor (collateral_value debt_value : Nat) :
    Except ProtocolError Nat :=
  if debt_value = 0 then
    .ok u64Max
  else
    match (checked_mul collateral_value 10000).bind (fun v => checked_div v debt_value) with
    | some hf => .ok hf
    | none => .error .MathOverflow

/-- calculate_collateral_value of utils/health.rs: rescale the amount to six
decimals, multiply by the six-decimal price and divide by 10^6, any failure
reported as MathOverflow.  `10u64.pow` is modelled as exact Nat power, which
agrees with the source for every decimals value small enough that the power
fits in u64 (decimals <= 25). -/
def calculate_collateral_value (collateral_amount price decimals : Nat) :
    Except ProtocolError Nat :=
  let adjusted : Option Nat :=
    if decimals > 6 then
      checked_div collateral_amount (10 ^ (decimals - 6))
    else if decimals < 6 then
      checked_mul collateral_amount (10 ^ (6 - decimals))
    else
      some collateral_amount
  match adjusted with
  | none => .error .MathOverflow
  | some adjusted_amount =>
    match (checked_mul adjusted_amount price).bind (fun v => checked_div v 1000000) with
    | some value => .ok value
    | none => .error .MathOverflow

/-- calculate_liquidation_penalty of utils/health.rs:
proceeds.checked_mul(penalty_bps).checked_div(10000). -/
def calculate_liquidation_penalty (total_proceeds penalty_bps : Nat) :
    Except ProtocolError Nat :=
  match (checked_mul total_proceeds penalty_bps).bind (fun v => checked_div v 10000) with
  | some penalty => .ok penalty
  | none => .error .MathOverflow

/-- is_oracle_stale of utils/oracle.rs: age = now.saturating_sub(timestamp)
(i64 saturating), stale when age > max_age_seconds as i64.  The ambient
`Clock::get()` timestamp is passed explicitly as `now`. -/
def is_oracle_stale (now : Int) (oracle_timestamp : Int) (max_age_seconds : Nat) : Bool :=
  i64_saturating_sub now oracle_timestamp > u64_as_i64 max_age_seconds

/-- validate_oracle_price of utils/oracle.rs: require price > 0
(OraclePriceUnavailable), then require not stale (OracleStale). -/
def validate_oracle_price (now : Int) (price : Nat) (timestamp : Int) (max_age : Nat) :
    Except ProtocolError Unit :=
  if price > 0 then
    if is_oracle_stale now timestamp max_age then .error .OracleStale else .ok ()
  else
    .error .OraclePriceUnavailable

/-- read_oracle_price of utils/oracle.rs: borrow and deserialize the oracle
account (a failure there surfaces as the Anchor account error, modelled by
the `none` case), require not stale (OracleStale), and return
(price, timestamp).  The source performs no zero-price check here. -/
def read_oracle_price (now : Int) (oracle_account : Option MockOracle) (max_age : Nat) :
    Except ProtocolError (Nat × Int) :=
  match oracle_account with
  | none => .error .accountDeserializeFailed
  | some mock =>
    if is_oracle_stale now mock.timestamp max_age then
      .error .OracleStale
    else
      .ok (mock.price, mock.timestamp)

/-- DepositCollateral::deposit of instructions/deposit_collateral.rs
(the SOL and token variants share this body): require not paused
(ProtocolPaused), require amount >= min_deposit (InsufficientCollateral),
then initialize the Position record with zero debt, default (all-zero)
meteora_position and Active status.  The final transfer of the collateral
into the per-user vault is a host CPI and does not touch the Position. -/
def DepositCollateral.deposit (config : Config) (collateral_config : CollateralConfig)
    (user : Nat) (now : Int) (amount : Nat) : Except ProtocolError Position :=
  if config.paused then
    .error .ProtocolPaused
  else if amount ≥ collateral_config.min_deposit then
    .ok { owner := user
          collateral_mint := collateral_config.mint
          collateral_amount := amount
          debt_amount := 0
          meteora_position := 0
          created_at := now
          status := .Active }
  else
    .error .InsufficientCollateral

/-- OpenPosition::open of instructions/open_position.rs: require not paused;
borrow_amount = collateral_amount.checked_mul(leverage).checked_div(10000);
require borrow_amount > 0; LendingVault::borrow; read_oracle_price;
collateral and debt value; calculate_ltv; require validate_ltv
(ExceedsMaxLTV); persist debt_amount = borrow_amount.  The two trailing
Meteora CPIs (initialize_position, add_liquidity_one_side) touch only
external DLMM state and the vault custody token account, never the Position
or the LendingVault ledger fields; a CPI failure aborts the whole
transaction, so the returned state is the state a successful call commits. -/
def OpenPosition.open (config : Config) (position : Position)
    (lending_vault : LendingVault) (collateral_config : CollateralConfig)
    (price_oracle : Option MockOracle) (now : Int) (leverage : Nat) :
    Except ProtocolError (Position × LendingVault) :=
  if config.paused then
    .error .ProtocolPaused
  else
    match (checked_mul position.collateral_amount leverage).bind
        (fun v => checked_div v 10000) with
    | none => .error .MathOverflow
    | some borrow_amount =>
      if borrow_amount = 0 then
        .error .InvalidAmount
      else
        match lending_vault.borrow borrow_amount with
        | .error e => .error e
        | .ok vault' =>
          match read_oracle_price now price_oracle collateral_config.oracle_max_age with
          | .error e => .error e
          | .ok (price, _) =>
            match calculate_collateral_value position.collateral_amount price
                collateral_config.decimals with
            | .error e => .error e
            | .ok collateral_value =>
              match calculate_collateral_value borrow_amount price
                  collateral_config.decimals with
              | .error e => .error e
              | .ok debt_value =>
                match calculate_ltv collateral_value debt_value with
                | .error e => .error e
                | .ok ltv =>
                  if collateral_config.validate_ltv ltv then
                    .ok ({ position with debt_amount := borrow_amount }, vault')
                  else
                    .error .ExceedsMaxLTV

/-- ClosePosition::close of instructions/close_position.rs: record the debt,
run the four Meteora CPIs (remove_liquidity_by_range, claim_fee, optional
swap of residual token-X proceeds, close_position — all external state and
custody token balances, assumed successful here since any CPI failure aborts
the transaction), then zero debt_amount, LendingVault::repay(debt) and
mark_closed.  The body never reads `config.paused`; config is an account of
the instruction but only its PDA is checked. -/
def ClosePosition.close (config : Config) (position : Position)
    (lending_vault : LendingVault) : Except ProtocolError (Position × LendingVault) :=
  let debt := position.debt_amount
  let position' := { position with debt_amount := 0 }
  match lending_vault.repay debt with
  | .error e => .error e
  | .ok vault' => .ok (position'.mark_closed, vault')

/-- Liquidate::liquidate of instructions/liquidate.rs: read_oracle_price,
collateral and debt value, calculate_ltv, require is_liquidatable
(PositionHealthy), LendingVault::repay(debt_amount), mark_liquidated.
The source never writes position.debt_amount (the Meteora unwind, penalty
payout and remainder return are TODO comments), and never reads
`config.paused`. -/
def Liquidate.liquidate (config : Config) (position : Position)
    (lending_vault : LendingVault) (collateral_config : CollateralConfig)
    (price_oracle : Option MockOracle) (now : Int) :
    Except ProtocolError (Position × LendingVault) :=
  match read_oracle_price now price_oracle collateral_config.oracle_max_age with
  | .error e => .error e
  | .ok (price, _) =>
    match calculate_collateral_value position.collateral_amount price
        collateral_config.decimals with
    | .error e => .error e
    | .ok collateral_value =>
      match calculate_collateral_value position.debt_amount price
          collateral_config.decimals with
      | .error e => .error e
      | .ok debt_value =>
        match calculate_ltv collateral_value debt_value with
        | .error e => .error e
        | .ok ltv =>
          if collateral_config.is_liquidatable ltv then
            match lending_vault.repay position.debt_amount with
            | .error e => .error e
            | .ok vault' => .ok (position.mark_liquidated, vault')
          else
            .error .PositionHealthy

/-- close_position entrypoint of lib.rs: the call to
`ctx.accounts.close(from_bin_id, to_bin_id)` is commented out and the body
is `Ok(())`, so the entrypoint performs no state change on the Position or
the LendingVault. -/
def close_position_entry (position : Position) (lending_vault : LendingVault)
    (from_bin_id to_bin_id : Int) : Except ProtocolError (Position × LendingVault) :=
  .ok (position, lending_vault)

/-- Lending-pool state for the liquidity invariant: the LendingVault ledger
together with the balance of the pool custody token account (the wsol_vault
that supply pays into, withdraw checks and pays out of, open borrows out of
and close repays into).  The custody balance lives in the token program, not
in this repository; its movements below are exactly the transfer amounts the
instructions pass to their CPIs. -/
structure PoolState where
  vault : LendingVault
  custody : Nat
  deriving Repr, DecidableEq

/-- The record update at the top of Supply::supply: a record with the default
(zero) lp key is freshly stamped with the signer and the current time
(init_if_needed path); an existing record first accrues interest. -/
def Supply.refresh_record (lp_position : LpPosition) (signer : Nat) (rate : Nat)
    (now : Int) : LpPosition :=
  if lp_position.lp = 0 then
    { lp_position with lp := signer, last_update := now }
  else
    lp_position.accrue_interest rate now

/-- Supply::supply of instructions/supply.rs: refresh the LP record, then
checked_add `amount` onto its supplied_amount and onto the vault
total_supplied (MathOverflow on either), and transfer `amount` from the
signer into pool custody. -/
def Supply.supply (pool : PoolState) (lp_position : LpPosition) (signer : Nat)
    (now : Int) (amount : Nat) :
    Except ProtocolError (PoolState × LpPosition) :=
  match checked_add (Supply.refresh_record lp_position signer
      pool.vault.interest_rate_bps now).supplied_amount amount with
  | none => .error .MathOverflow
  | some s =>
    match checked_add pool.vault.total_supplied amount with
    | none => .error .MathOverflow
    | some ts =>
      .ok ({ vault := { pool.vault with total_supplied := ts }
             custody := pool.custody + amount },
           { Supply.refresh_record lp_position signer pool.vault.interest_rate_bps now
               with supplied_amount := s })

/-- Withdraw::withdraw of instructions/withdraw.rs: accrue interest at the
current time, amount = claimable(); require custody >= amount
(InsufficientLiquidity); total_supplied.checked_sub(supplied_amount)
(MathUnderflow); transfer `amount` from custody to the owner.  The record is
destroyed by the `close = signer` account constraint, so the result carries
only the pool state and the amount paid out. -/
def Withdraw.withdraw (pool : PoolState) (lp_position : LpPosition) (now : Int) :
    Except ProtocolError (PoolState × Nat) :=
  if pool.custody ≥
      (lp_position.accrue_interest pool.vault.interest_rate_bps now).claimable then
    match checked_sub pool.vault.total_supplied
        (lp_position.accrue_interest pool.vault.interest_rate_bps now).supplied_amount with
    | none => .error .MathUnderflow
    | some ts =>
      .ok ({ vault := { pool.vault with total_supplied := ts }
             custody := pool.custody -
               (lp_position.accrue_interest pool.vault.interest_rate_bps now).claimable },
           (lp_position.accrue_interest pool.vault.interest_rate_bps now).claimable)
  else
    .error .InsufficientLiquidity

/-- The borrow operation as the open workflow performs it:
LendingVault::borrow records the debt, and the add_liquidity_one_side CPI
then moves exactly borrow_amount out of the pool custody token account
(user_token = wsol_vault, amount = borrow_amount); the token program rejects
the transfer when custody lacks the funds, aborting the whole atomic
operation (modelled as WithdrawalFailed). -/
def PoolState.borrow_deploy (pool : PoolState) (amount : Nat) :
    Except ProtocolError PoolState :=
  match pool.vault.borrow amount with
  | .error e => .error e
  | .ok v' =>
    if pool.custody ≥ amount then
      .ok { vault := v', custody := pool.custody - amount }
    else
      .error .WithdrawalFailed

/-- The repay operation as the close workflow performs it: the unwind CPIs
route the proceeds covering the recorded debt into pool custody, then
LendingVault::repay clears the debt from the ledger.  The custody inflow is
capped here at the repaid amount; surplus AMM proceeds are external value,
not part of the four pool operations. -/
def PoolState.repay_proceeds (pool : PoolState) (amount : Nat) :
    Except ProtocolError PoolState :=
  match pool.vault.repay amount with
  | .error e => .error e
  | .ok v' => .ok { vault := v', custody := pool.custody + amount }

/-- Pool states reachable from an initialized pool (initialize.rs and
initialize_lending_vault.rs both set total_supplied = 0, total_borrowed = 0;
the custody token account starts empty) through the supply, withdraw, borrow
and repay operations, each taken only when it succeeds.  The LP record fed
to supply and withdraw is universally quantified, which over-approximates
the records the program can actually hold. -/
inductive PoolReachable : PoolState → Prop
  | init_pool (auth rate : Nat) (t : Int) :
      PoolReachable ⟨⟨auth, 0, 0, rate, t⟩, 0⟩
  | supply_step {s s' : PoolState} {lp lp' : LpPosition} {signer : Nat} {now : Int}
      {amount : Nat} :
      PoolReachable s → Supply.supply s lp signer now amount = .ok (s', lp') →
      PoolReachable s'
  | withdraw_step {s s' : PoolState} {lp : LpPosition} {now : Int} {amt : Nat} :
      PoolReachable s → Withdraw.withdraw s lp now = .ok (s', amt) →
      PoolReachable s'
  | borrow_step {s s' : PoolState} {amount : Nat} :
      PoolReachable s → PoolState.borrow_deploy s amount = .ok s' →
      PoolReachable s'
  | repay_step {s s' : PoolState} {amount : Nat} :
      PoolReachable s → PoolState.repay_proceeds s amount = .ok s' →
      PoolReachable s'

/-- Inductive strengthening of the liquidity invariant: the recorded debt
plus the custody balance never exceeds the recorded supply, and the
recorded supply fits in a u64. -/
def PoolInv (s : PoolState) : Prop :=
  s.vault.total_borrowed + s.custody ≤ s.vault.total_supplied ∧
    s.vault.total_supplied ≤ u64Max

/-- Refinement reference for the open workflow LTV check.  Modelled from the
spec: LTV computed as debt_value / (collateral_value + debt_value) in basis
points — the formula §4.7 step 4 prescribes, to be compared against the
calculate_ltv the source actually calls. -/
def ltv_spec_formula (collateral_value debt_value : Nat) : Nat :=
  debt_value * 10000 / (collateral_value + debt_value)

/-- Well-formedness of a vault as a record of u64 fields. -/
def LendingVault.WF (v : LendingVault) : Prop :=
  v.total_supplied ≤ u64Max ∧ v.total_borrowed ≤ u64Max

theorem u64Max_eq : u64Max = 18446744073709551615 := by norm_num [u64Max]

theorem checked_add_some {a b c : Nat} (h : checked_add a b = some c) :
    c = a + b ∧ a + b ≤ u64Max := by
  unfold checked_add at h
  split at h <;> simp_all

theorem checked_sub_some {a b c : Nat} (h : checked_sub a b = some c) :
    b ≤ a ∧ c = a - b := by
  unfold checked_sub at h
  split at h <;> simp_all

theorem borrow_ok_inv {v v' : LendingVault} {amount : Nat}
    (h : v.borrow amount = .ok v') :
    amount ≤ v.total_supplied - v.total_borrowed ∧
      v' = { v with total_borrowed := v.total_borrowed + amount } := by
  unfold LendingVault.borrow at h
  by_cases hcb : v.can_borrow amount = true
  · rw [if_pos hcb] at h
    cases hn : checked_add v.total_borrowed amount with
    | none => rw [hn] at h; exact absurd h (by simp)
    | some n =>
      rw [hn] at h
      obtain ⟨h1, _⟩ := checked_add_some hn
      simp only [Except.ok.injEq] at h
      refine ⟨?_, by rw [← h, h1]⟩
      simpa [LendingVault.can_borrow, LendingVault.available_liquidity,
        saturating_sub] using hcb
  · rw [if_neg hcb] at h
    exact absurd h (by simp)

theorem repay_ok_inv {v v' : LendingVault} {amount : Nat}
    (h : v.repay amount = .ok v') :
    amount ≤ v.total_borrowed ∧
      v' = { v with total_borrowed := v.total_borrowed - amount } := by
  unfold LendingVault.repay at h
  cases hn : checked_sub v.total_borrowed amount with
  | none => rw [hn] at h; exact absurd h (by simp)
  | some n =>
    rw [hn] at h
    obtain ⟨h1, h2⟩ := checked_sub_some hn
    simp only [Except.ok.injEq] at h
    exact ⟨h1, by rw [← h, h2]⟩

theorem supply_ok_inv {s s' : PoolState} {lp lp' : LpPosition} {signer : Nat}
    {now : Int} {amount : Nat}
    (h : Supply.supply s lp signer now amount = .ok (s', lp')) :
    s'.vault.total_borrowed = s.vault.total_borrowed ∧
      s'.vault.total_supplied = s.vault.total_supplied + amount ∧
      s'.custody = s.custody + amount ∧
      s.vault.total_supplied + amount ≤ u64Max := by
  unfold Supply.supply at h
  cases hm : checked_add (Supply.refresh_record lp signer
      s.vault.interest_rate_bps now).supplied_amount amount with
  | none => rw [hm] at h; exact absurd h (by simp)
  | some m =>
    rw [hm] at h
    cases hn : checked_add s.vault.total_supplied amount with
    | none => rw [hn] at h; exact absurd h (by simp)
    | some n =>
      rw [hn] at h
      obtain ⟨h1, h2⟩ := checked_add_some hn
      simp only [Except.ok.injEq, Prod.mk.injEq] at h
      obtain ⟨hs, _⟩ := h
      rw [← hs]
      exact ⟨rfl, by rw [h1], rfl, h2⟩

theorem claimable_ge_supplied (p : LpPosition) (h : p.supplied_amount ≤ u64Max) :
    p.supplied_amount ≤ p.claimable := by
  unfold LpPosition.claimable saturating_add
  omega

theorem accrue_keeps_supplied (p : LpPosition) (rate : Nat) (t : Int) :
    (p.accrue_interest rate t).supplied_amount = p.supplied_amount := rfl

theorem withdraw_ok_inv {s s' : PoolState} {lp : LpPosition} {now : Int} {amt : Nat}
    (h : Withdraw.withdraw s lp now = .ok (s', amt)) :
    (lp.accrue_interest s.vault.interest_rate_bps now).claimable = amt ∧
      amt ≤ s.custody ∧
      (lp.accrue_interest s.vault.interest_rate_bps now).supplied_amount ≤
        s.vault.total_supplied ∧
      s'.vault.total_borrowed = s.vault.total_borrowed ∧
      s'.vault.total_supplied =
        s.vault.total_supplied -
          (lp.accrue_interest s.vault.interest_rate_bps now).supplied_amount ∧
      s'.custody = s.custody - amt := by
  unfold Withdraw.withdraw at h
  by_cases hc : s.custody ≥ (lp.accrue_interest s.vault.interest_rate_bps now).claimable
  · rw [if_pos hc] at h
    cases hn : checked_sub s.vault.total_supplied
        (lp.accrue_interest s.vault.interest_rate_bps now).supplied_amount with
    | none => rw [hn] at h; exact absurd h (by simp)
    | some n =>
      rw [hn] at h
      obtain ⟨h1, h2⟩ := checked_sub_some hn
      simp only [Except.ok.injEq, Prod.mk.injEq] at h
      obtain ⟨hs, ha⟩ := h
      rw [← hs, ← ha]
      exact ⟨rfl, hc, h1, rfl, by rw [h2], rfl⟩
  · rw [if_neg hc] at h
    exact absurd h (by simp)

theorem pool_inv_reachable {s : PoolState} (h : PoolReachable s) : PoolInv s := by
  induction h with
  | init_pool auth rate t =>
    exact ⟨Nat.le_refl 0, Nat.zero_le _⟩
  | supply_step hr hok ih =>
    obtain ⟨hb, hs, hc, hmax⟩ := supply_ok_inv hok
    obtain ⟨ih1, ih2⟩ := ih
    exact ⟨by omega, by omega⟩
  | withdraw_step hr hok ih =>
    obtain ⟨hclaim, hcust, hsup, hb, hs, hc⟩ := withdraw_ok_inv hok
    obtain ⟨ih1, ih2⟩ := ih
    rename_i s₀ s' lp now amt
    have hsle : (lp.accrue_interest s₀.vault.interest_rate_bps now).supplied_amount ≤
        u64Max := le_trans hsup ih2
    have hge := claimable_ge_supplied _ hsle
    rw [hclaim] at hge
    exact ⟨by omega, by omega⟩
  | borrow_step hr hok ih =>
    rename_i s₀ s' amount
    unfold PoolState.borrow_deploy at hok
    cases hv : s₀.vault.borrow amount with
    | error e => rw [hv] at hok; exact absurd hok (by simp)
    | ok v' =>
      rw [hv] at hok
      dsimp only [] at hok
      obtain ⟨hav, hveq⟩ := borrow_ok_inv hv
      by_cases hc : s₀.custody ≥ amount
      · rw [if_pos hc] at hok
        simp only [Except.ok.injEq] at hok
        obtain ⟨ih1, ih2⟩ := ih
        rw [← hok, hveq]
        refine ⟨?_, ?_⟩ <;> simp only [] <;> omega
      · rw [if_neg hc] at hok
        exact absurd hok (by simp)
  | repay_step hr hok ih =>
    rename_i s₀ s' amount
    unfold PoolState.repay_proceeds at hok
    cases hv : s₀.vault.repay amount with
    | error e => rw [hv] at hok; exact absurd hok (by simp)
    | ok v' =>
      rw [hv] at hok
      dsimp only [] at hok
      obtain ⟨hle, hveq⟩ := repay_ok_inv hv
      simp only [Except.ok.injEq] at hok
      obtain ⟨ih1, ih2⟩ := ih
      rw [← hok, hveq]
      refine ⟨?_, ?_⟩ <;> simp only [] <;> omega

/-- C2: every lending-pool state reachable from an initialized pool through
the supply, withdraw, borrow and repay operations (each taken only when it
succeeds) satisfies total_borrowed <= total_supplied.  Proved by
strengthening to PoolInv: the recorded debt plus the custody balance never
exceeds the recorded supply, which the withdraw guard
(custody >= claimable >= supplied_amount) maintains. -/
theorem c2_liquidity_invariant (s : PoolState) (h : PoolReachable s) :
    s.vault.total_borrowed ≤ s.vault.total_supplied := by
  obtain ⟨h1, _⟩ := pool_inv_reachable h
  omega

/-- Witness for C2: the state after supply(100) and then a leveraged borrow
of 40 from a freshly initialized pool is reachable, and the theorem yields
its liquidity invariant. -/
theorem c2_liquidity_invariant_witness :
    (⟨⟨0, 100, 40, 30, 0⟩, 60⟩ : PoolState).vault.total_borrowed ≤
      (⟨⟨0, 100, 40, 30, 0⟩, 60⟩ : PoolState).vault.total_supplied :=
  c2_liquidity_invariant ⟨⟨0, 100, 40, 30, 0⟩, 60⟩
    (PoolReachable.borrow_step
      (PoolReachable.supply_step (PoolReachable.init_pool 0 30 0)
        (show Supply.supply ⟨⟨0, 0, 0, 30, 0⟩, 0⟩ ⟨0, 0, 0, 0⟩ 1 0 100 =
            .ok (⟨⟨0, 100, 0, 30, 0⟩, 100⟩, ⟨1, 100, 0, 0⟩) by rfl))
      (show PoolState.borrow_deploy ⟨⟨0, 100, 0, 30, 0⟩, 100⟩ 40 =
          .ok ⟨⟨0, 100, 40, 30, 0⟩, 60⟩ by rfl))

/-- C1: liquidating an Active position with debt_amount = 1000 that is under
water (collateral value 100, debt value 1000, liquidation threshold 8000
bps) succeeds, marks the position Liquidated — and leaves debt_amount =
1000 on it, because Liquidate::liquidate never writes position.debt_amount
(only ClosePosition::close zeroes it before marking Closed).  This violates
the claimed invariant debt_amount = 0 whenever status is not Active. -/
theorem c1_liquidate_keeps_debt :
    Liquidate.liquidate ⟨7, false⟩ ⟨1, 2, 100, 1000, 0, 0, .Active⟩
        ⟨0, 2000, 1000, 30, 0⟩ ⟨2, 3, 7500, 8000, 500, 10, 350, 60, 6, true⟩
        (some ⟨0, 1000000, 6, 0⟩) 0 =
      .ok (⟨1, 2, 100, 1000, 0, 0, .Liquidated⟩, ⟨0, 2000, 0, 30, 0⟩) ∧
      (⟨1, 2, 100, 1000, 0, 0, .Liquidated⟩ : Position).status ≠ .Active ∧
      (⟨1, 2, 100, 1000, 0, 0, .Liquidated⟩ : Position).debt_amount = 1000 := by
  refine ⟨by rfl, by decide, rfl⟩

/-- C4 counterexample: a perfectly fresh oracle whose price is 0 is read
successfully — read_oracle_price returns (0, timestamp) instead of failing
with OraclePriceUnavailable, because it performs no zero-price check (that
check lives only in validate_oracle_price, which read_oracle_price does not
call). -/
theorem c4_counterexample :
    read_oracle_price 100 (some ⟨0, 0, 6, 100⟩) 60 = .ok (0, 100) ∧
      (Except.ok (0, 100) : Except ProtocolError (Nat × Int)) ≠
        .error .OraclePriceUnavailable := by
  refine ⟨by rfl, by simp⟩

/-- C4 (amended): for a readable (deserializable) oracle source,
read_oracle_price fails with OracleStale exactly when now − timestamp
exceeds max_age, and otherwise returns (price, timestamp) — with no
zero-price check, so a zero price is returned as a success; an absent or
malformed source fails with the Anchor account error, not
OraclePriceUnavailable.  The range hypotheses keep the i64 saturating
subtraction and the u64-to-i64 cast of max_age exact. -/
theorem c4_read_oracle_spec (now : Int) (mock : MockOracle) (max_age : Nat)
    (hlo : i64Min ≤ now - mock.timestamp) (hhi : now - mock.timestamp ≤ i64Max)
    (hma : (max_age : Int) ≤ i64Max) :
    (now - mock.timestamp > (max_age : Int) →
      read_oracle_price now (some mock) max_age = .error .OracleStale) ∧
    (now - mock.timestamp ≤ (max_age : Int) →
      read_oracle_price now (some mock) max_age = .ok (mock.price, mock.timestamp)) ∧
    read_oracle_price now none max_age = .error .accountDeserializeFailed := by
  have hsat : i64_saturating_sub now mock.timestamp = now - mock.timestamp := by
    unfold i64_saturating_sub
    rw [min_eq_right hhi, max_eq_right hlo]
  have hcast : u64_as_i64 max_age = (max_age : Int) := by
    unfold u64_as_i64
    unfold i64Max at hma
    have hlt : max_age + 2 ^ 63 < 2 ^ 64 := by omega
    rw [Nat.mod_eq_of_lt hlt]
    push_cast
    ring
  refine ⟨?_, ?_, rfl⟩
  · intro hgt
    have hst : is_oracle_stale now mock.timestamp max_age = true := by
      unfold is_oracle_stale
      rw [hsat, hcast]
      exact decide_eq_true hgt
    simp [read_oracle_price, hst]
  · intro hle
    have hst : is_oracle_stale now mock.timestamp max_age = false := by
      unfold is_oracle_stale
      rw [hsat, hcast]
      exact decide_eq_false (by omega)
    simp [read_oracle_price, hst]

/-- Witness for C4 (amended): an oracle 70 seconds old with max_age 60 is
rejected as stale. -/
theorem c4_read_oracle_spec_witness :
    read_oracle_price 100 (some ⟨0, 5, 6, 30⟩) 60 = .error .OracleStale :=
  (c4_read_oracle_spec 100 ⟨0, 5, 6, 30⟩ 60 (by decide) (by decide) (by decide)).1
    (by decide)

/-- C5 counterexample: repaying 7 against a vault whose total_borrowed is 5
fails with MathOverflow, not with the MathUnderflow error the claim names
(LendingVault::repay maps the failed checked_sub to MathOverflow). -/
theorem c5_counterexample :
    LendingVault.repay ⟨0, 100, 5, 30, 0⟩ 7 = .error .MathOverflow ∧
      ProtocolError.MathOverflow ≠ ProtocolError.MathUnderflow := by
  refine ⟨by rfl, by decide⟩

/-- C5 (amended): repay(amount) with amount > total_borrowed fails — with
the MathOverflow error code — and, the operation failing, commits no state;
with amount <= total_borrowed it decreases total_borrowed by exactly
amount. -/
theorem c5_repay_spec (v : LendingVault) (amount : Nat) :
    (amount > v.total_borrowed → v.repay amount = .error .MathOverflow) ∧
    (amount ≤ v.total_borrowed →
      v.repay amount = .ok { v with total_borrowed := v.total_borrowed - amount }) := by
  constructor
  · intro hgt
    unfold LendingVault.repay checked_sub
    rw [if_neg (by omega)]
  · intro hle
    unfold LendingVault.repay checked_sub
    rw [if_pos hle]

/-- Witness for C5 (amended): repaying 3 against total_borrowed = 5 leaves 2. -/
theorem c5_repay_spec_witness :
    LendingVault.repay ⟨0, 100, 5, 30, 0⟩ 3 = .ok ⟨0, 100, 2, 30, 0⟩ :=
  (c5_repay_spec ⟨0, 100, 5, 30, 0⟩ 3).2 (by decide)

/-- C7: borrow(amount) fails with InsufficientLiquidity exactly when amount
exceeds the saturating difference total_supplied − total_borrowed, leaving
the vault unchanged (the operation returns an error and commits nothing);
otherwise it returns the vault with total_borrowed increased by exactly
amount.  The MathOverflow branch of the checked add is unreachable for
u64-valued vaults: under the liquidity guard the new total_borrowed is
bounded by total_supplied, so the third conjunct records that the overflow
case implies False. -/
theorem c7_borrow_spec (v : LendingVault) (amount : Nat) (hwf : v.WF) :
    (amount > v.total_supplied - v.total_borrowed →
      v.borrow amount = .error .InsufficientLiquidity) ∧
    (amount ≤ v.total_supplied - v.total_borrowed →
      v.borrow amount = .ok { v with total_borrowed := v.total_borrowed + amount }) ∧
    (amount ≤ v.total_supplied - v.total_borrowed →
      v.total_borrowed + amount ≤ u64Max) := by
  obtain ⟨hs, hb⟩ := hwf
  refine ⟨?_, ?_, ?_⟩
  · intro hgt
    unfold LendingVault.borrow
    rw [if_neg (by
      simp only [LendingVault.can_borrow, LendingVault.available_liquidity,
        saturating_sub, ge_iff_le, decide_eq_true_eq]
      omega)]
  · intro hle
    unfold LendingVault.borrow
    rw [if_pos (by
      simp only [LendingVault.can_borrow, LendingVault.available_liquidity,
        saturating_sub, ge_iff_le, decide_eq_true_eq]
      omega)]
    unfold checked_add
    rw [if_pos (by omega)]
  · intro hle
    omega

/-- Witness for C7: borrowing 50 against supplied 100 / borrowed 20 leaves
total_borrowed = 70. -/
theorem c7_borrow_spec_witness :
    LendingVault.borrow ⟨0, 100, 20, 30, 0⟩ 50 = .ok ⟨0, 100, 70, 30, 0⟩ :=
  ((c7_borrow_spec ⟨0, 100, 20, 30, 0⟩ 50 ⟨by decide, by decide⟩).2.1 (by decide))

/-- C9: the close_position entrypoint of lib.rs returns success for every
input and performs no state change — the call into ClosePosition::close is
commented out, so the Position status and debt_amount and the vault
total_borrowed after the call are the ones passed in. -/
theorem c9_close_position_entry_noop (position : Position)
    (lending_vault : LendingVault) (from_bin_id to_bin_id : Int) :
    ∃ p v,
      close_position_entry position lending_vault from_bin_id to_bin_id = .ok (p, v) ∧
        p.status = position.status ∧
        p.debt_amount = position.debt_amount ∧
        v.total_borrowed = lending_vault.total_borrowed :=
  ⟨position, lending_vault, rfl, rfl, rfl, rfl⟩

/-- C6 counterexample: with the protocol paused, closing an Active position
succeeds (status becomes Closed, the vault debt is repaid) and liquidating
an under-water Active position succeeds as well — neither body reads the
paused flag, contradicting the claim that close and liquidate fail with
ProtocolPaused while paused. -/
theorem c6_counterexample :
    ClosePosition.close ⟨7, true⟩ ⟨1, 2, 100, 50, 0, 0, .Active⟩
        ⟨0, 2000, 50, 30, 0⟩ =
      .ok (⟨1, 2, 100, 0, 0, 0, .Closed⟩, ⟨0, 2000, 0, 30, 0⟩) ∧
    Liquidate.liquidate ⟨7, true⟩ ⟨1, 2, 100, 1000, 0, 0, .Active⟩
        ⟨0, 2000, 1000, 30, 0⟩ ⟨2, 3, 7500, 8000, 500, 10, 350, 60, 6, true⟩
        (some ⟨0, 1000000, 6, 0⟩) 0 =
      .ok (⟨1, 2, 100, 1000, 0, 0, .Liquidated⟩, ⟨0, 2000, 0, 30, 0⟩) := by
  refine ⟨by rfl, by rfl⟩

/-- C6 (amended): while paused, collateral deposit and open fail with
ProtocolPaused (committing nothing); close and liquidate never consult the
paused flag — their result is the same for any two Config values — so they
can succeed while the protocol is paused. -/
theorem c6_pause_gate (config : Config) (ccfg : CollateralConfig) (pos : Position)
    (v : LendingVault) (o : Option MockOracle) (user : Nat) (now : Int)
    (amount leverage : Nat) (hp : config.paused = true) :
    DepositCollateral.deposit config ccfg user now amount = .error .ProtocolPaused ∧
    OpenPosition.open config pos v ccfg o now leverage = .error .ProtocolPaused ∧
    (∀ c1 c2 : Config, ClosePosition.close c1 pos v = ClosePosition.close c2 pos v) ∧
    (∀ c1 c2 : Config,
      Liquidate.liquidate c1 pos v ccfg o now = Liquidate.liquidate c2 pos v ccfg o now) := by
  refine ⟨?_, ?_, fun c1 c2 => rfl, fun c1 c2 => rfl⟩
  · unfold DepositCollateral.deposit
    rw [if_pos hp]
  · unfold OpenPosition.open
    rw [if_pos hp]

/-- Witness for C6 (amended): a paused deposit fails with ProtocolPaused. -/
theorem c6_pause_gate_witness :
    DepositCollateral.deposit ⟨7, true⟩ ⟨2, 3, 7500, 8000, 500, 10, 350, 60, 6, true⟩
        1 0 100 = .error .ProtocolPaused :=
  (c6_pause_gate ⟨7, true⟩ ⟨2, 3, 7500, 8000, 500, 10, 350, 60, 6, true⟩
    ⟨1, 2, 100, 0, 0, 0, .Active⟩ ⟨0, 2000, 0, 30, 0⟩ (some ⟨0, 1000000, 6, 0⟩)
    1 0 100 5000 rfl).1

theorem calculate_ltv_ok {cv dv l : Nat} (h : calculate_ltv cv dv = .ok l) :
    cv ≠ 0 ∧ l = dv * 10000 / cv := by
  unfold calculate_ltv at h
  by_cases hz : cv = 0
  · rw [if_pos hz] at h
    exact absurd h (by simp)
  · rw [if_neg hz] at h
    refine ⟨hz, ?_⟩
    by_cases hmul : dv * 10000 ≤ u64Max
    · have hm : (checked_mul dv 10000).bind (fun v => checked_div v cv) =
          some (dv * 10000 / cv) := by
        unfold checked_mul checked_div
        rw [if_pos hmul]
        simp only [Option.some_bind]
        rw [if_neg hz]
      rw [hm] at h
      simp only [Except.ok.injEq] at h
      exact h.symm
    · have hm : (checked_mul dv 10000).bind (fun v => checked_div v cv) = none := by
        unfold checked_mul
        rw [if_neg hmul]
        rfl
      rw [hm] at h
      exact absurd h (by simp)

/-- C3 counterexample: collateral 100 at price 1.0 opened with leverage 1x
borrows 100, so collateral value = debt value = 100.  The ratio the claim
prescribes, debt_value / (collateral_value + debt_value), is 5000 bps, below
max_ltv = 7500, hence per the claim the open must not fail with
ExceedsMaxLTV — yet it does, because the code computes
calculate_ltv(collateral_value, debt_value) = debt_value * 10000 /
collateral_value = 10000 bps. -/
theorem c3_counterexample :
    OpenPosition.open ⟨7, false⟩ ⟨1, 2, 100, 0, 0, 0, .Active⟩ ⟨0, 2000, 0, 30, 0⟩
        ⟨2, 3, 7500, 8000, 500, 10, 350, 60, 6, true⟩ (some ⟨0, 1000000, 6, 0⟩)
        0 10000 = .error .ExceedsMaxLTV ∧
      ltv_spec_formula 100 100 = 5000 ∧ 5000 ≤ 7500 := by
  refine ⟨by rfl, by rfl, by decide⟩

/-- C3 (amended): when the steps before the risk check succeed (not paused,
borrow amount computed and nonzero, vault borrow ok, oracle read ok, value
computations ok), the LTV checked against max_ltv is
calculate_ltv(collateral_value, debt_value) = debt_value * 10000 /
collateral_value, and open fails with ExceedsMaxLTV exactly when that
ratio exceeds max_ltv; otherwise it succeeds, persisting
debt_amount = borrow_amount. -/
theorem c3_ltv_check (config : Config) (pos : Position) (v v' : LendingVault)
    (ccfg : CollateralConfig) (o : Option MockOracle) (now : Int)
    (leverage b price cv dv l : Nat) (ts : Int)
    (hp : config.paused = false)
    (hb : (checked_mul pos.collateral_amount leverage).bind
        (fun x => checked_div x 10000) = some b)
    (hb0 : ¬b = 0)
    (hbor : v.borrow b = .ok v')
    (hor : read_oracle_price now o ccfg.oracle_max_age = .ok (price, ts))
    (hcv : calculate_collateral_value pos.collateral_amount price ccfg.decimals = .ok cv)
    (hdv : calculate_collateral_value b price ccfg.decimals = .ok dv)
    (hltv : calculate_ltv cv dv = .ok l) :
    l = dv * 10000 / cv ∧
    (OpenPosition.open config pos v ccfg o now leverage = .error .ExceedsMaxLTV ↔
      ccfg.max_ltv < l) ∧
    (l ≤ ccfg.max_ltv →
      OpenPosition.open config pos v ccfg o now leverage =
        .ok ({ pos with debt_amount := b }, v')) := by
  obtain ⟨hcv0, hleq⟩ := calculate_ltv_ok hltv
  have key : OpenPosition.open config pos v ccfg o now leverage =
      (if ccfg.validate_ltv l then .ok ({ pos with debt_amount := b }, v')
       else .error .ExceedsMaxLTV) := by
    unfold OpenPosition.open
    rw [hp]
    rw [if_neg (by simp)]
    rw [hb]
    dsimp only []
    rw [if_neg hb0, hbor]
    dsimp only []
    rw [hor]
    dsimp only []
    rw [hcv]
    dsimp only []
    rw [hdv]
    dsimp only []
    rw [hltv]
  refine ⟨hleq, ?_, ?_⟩
  · rw [key]
    by_cases hvl : l ≤ ccfg.max_ltv
    · rw [if_pos (by simp only [CollateralConfig.validate_ltv, decide_eq_true_eq]; omega)]
      simp only [reduceCtorEq, false_iff, not_lt]
      exact hvl
    · rw [if_neg (by simp only [CollateralConfig.validate_ltv, decide_eq_true_eq]; omega)]
      simp only [Except.error.injEq, true_iff]
      omega
  · intro hle
    rw [key, if_pos (by simp only [CollateralConfig.validate_ltv, decide_eq_true_eq]; omega)]

/-- Witness for C3 (amended): collateral 100, leverage 0.5x borrows 50 at
price 1.0; the checked ratio is 50 * 10000 / 100 = 5000 bps, at most 7500,
and the open succeeds with debt_amount = 50. -/
theorem c3_ltv_check_witness :
    OpenPosition.open ⟨7, false⟩ ⟨1, 2, 100, 0, 0, 0, .Active⟩ ⟨0, 2000, 0, 30, 0⟩
        ⟨2, 3, 7500, 8000, 500, 10, 350, 60, 6, true⟩ (some ⟨0, 1000000, 6, 0⟩)
        0 5000 =
      .ok (⟨1, 2, 100, 50, 0, 0, .Active⟩, ⟨0, 2000, 50, 30, 0⟩) :=
  (c3_ltv_check ⟨7, false⟩ ⟨1, 2, 100, 0, 0, 0, .Active⟩ ⟨0, 2000, 0, 30, 0⟩
    ⟨0, 2000, 50, 30, 0⟩ ⟨2, 3, 7500, 8000, 500, 10, 350, 60, 6, true⟩
    (some ⟨0, 1000000, 6, 0⟩) 0 5000 50 1000000 100 50 5000 0
    rfl rfl (by decide) rfl rfl rfl rfl rfl).2.2 (by decide)

theorem open_ok_inv {config : Config} {pos pos' : Position} {v v' : LendingVault}
    {ccfg : CollateralConfig} {o : Option MockOracle} {now : Int} {leverage : Nat}
    (h : OpenPosition.open config pos v ccfg o now leverage = .ok (pos', v')) :
    ∃ b, pos' = { pos with debt_amount := b } := by
  unfold OpenPosition.open at h
  by_cases hp : config.paused = true
  · rw [if_pos hp] at h
    exact absurd h (by simp)
  · rw [if_neg hp] at h
    cases hb : (checked_mul pos.collateral_amount leverage).bind
        (fun x => checked_div x 10000) with
    | none => rw [hb] at h; exact absurd h (by simp)
    | some b =>
      rw [hb] at h
      dsimp only [] at h
      by_cases hb0 : b = 0
      · rw [if_pos hb0] at h
        exact absurd h (by simp)
      · rw [if_neg hb0] at h
        cases hv : v.borrow b with
        | error e => rw [hv] at h; exact absurd h (by simp)
        | ok vault1 =>
          rw [hv] at h
          dsimp only [] at h
          cases ho : read_oracle_price now o ccfg.oracle_max_age with
          | error e => rw [ho] at h; exact absurd h (by simp)
          | ok pr =>
            obtain ⟨price, ts⟩ := pr
            rw [ho] at h
            dsimp only [] at h
            cases hcv : calculate_collateral_value pos.collateral_amount price
                ccfg.decimals with
            | error e => rw [hcv] at h; exact absurd h (by simp)
            | ok cv =>
              rw [hcv] at h
              dsimp only [] at h
              cases hdv : calculate_collateral_value b price ccfg.decimals with
              | error e => rw [hdv] at h; exact absurd h (by simp)
              | ok dv =>
                rw [hdv] at h
                dsimp only [] at h
                cases hl : calculate_ltv cv dv with
                | error e => rw [hl] at h; exact absurd h (by simp)
                | ok l =>
                  rw [hl] at h
                  dsimp only [] at h
                  by_cases hval : ccfg.validate_ltv l = true
                  · rw [if_pos hval] at h
                    simp only [Except.ok.injEq, Prod.mk.injEq] at h
                    exact ⟨b, h.1.symm⟩
                  · rw [if_neg hval] at h
                    exact absurd h (by simp)

theorem deposit_ok_inv {config : Config} {ccfg : CollateralConfig} {user : Nat}
    {now : Int} {amount : Nat} {pos : Position}
    (h : DepositCollateral.deposit config ccfg user now amount = .ok pos) :
    pos = { owner := user, collateral_mint := ccfg.mint, collateral_amount := amount,
            debt_amount := 0, meteora_position := 0, created_at := now,
            status := .Active } := by
  unfold DepositCollateral.deposit at h
  by_cases hp : config.paused = true
  · rw [if_pos hp] at h
    exact absurd h (by simp)
  · rw [if_neg hp] at h
    by_cases hm : amount ≥ ccfg.min_deposit
    · rw [if_pos hm] at h
      simp only [Except.ok.injEq] at h
      exact h.symm
    · rw [if_neg hm] at h
      exact absurd h (by simp)

/-- C10: a successful open returns the input Position with only debt_amount
replaced — owner, collateral_mint, collateral_amount, meteora_position,
created_at and status are all unchanged (the source writes only
position.debt_amount; the line storing the DLMM position key is commented
out) — and if that Position came from a collateral deposit, its
meteora_position is still the default (zero) value the deposit wrote. -/
theorem c10_open_frame (config : Config) (pos pos' : Position) (v v' : LendingVault)
    (ccfg : CollateralConfig) (o : Option MockOracle) (now : Int) (leverage : Nat)
    (dconfig : Config) (dccfg : CollateralConfig) (user : Nat) (dnow : Int)
    (amount : Nat)
    (hopen : OpenPosition.open config pos v ccfg o now leverage = .ok (pos', v')) :
    pos'.owner = pos.owner ∧ pos'.collateral_mint = pos.collateral_mint ∧
    pos'.collateral_amount = pos.collateral_amount ∧
    pos'.meteora_position = pos.meteora_position ∧
    pos'.created_at = pos.created_at ∧ pos'.status = pos.status ∧
    (DepositCollateral.deposit dconfig dccfg user dnow amount = .ok pos →
      pos'.meteora_position = 0) := by
  obtain ⟨b, hb⟩ := open_ok_inv hopen
  subst hb
  refine ⟨rfl, rfl, rfl, rfl, rfl, rfl, ?_⟩
  intro hdep
  have hd := deposit_ok_inv hdep
  rw [hd]

/-- Witness for C10: a deposit of 100 followed by an open at leverage 0.5x;
the resulting Position keeps meteora_position = 0. -/
theorem c10_open_frame_witness :
    (⟨1, 2, 100, 50, 0, 0, .Active⟩ : Position).meteora_position = 0 :=
  (c10_open_frame ⟨7, false⟩ ⟨1, 2, 100, 0, 0, 0, .Active⟩
    ⟨1, 2, 100, 50, 0, 0, .Active⟩ ⟨0, 2000, 0, 30, 0⟩ ⟨0, 2000, 50, 30, 0⟩
    ⟨2, 3, 7500, 8000, 500, 10, 350, 60, 6, true⟩ (some ⟨0, 1000000, 6, 0⟩) 0 5000
    ⟨7, false⟩ ⟨2, 3, 7500, 8000, 500, 10, 350, 60, 6, true⟩ 1 0 100
    (by rfl)).2.2.2.2.2.2 (by rfl)

/-- C8: supplying `amount` as a fresh provider and withdrawing at the same
timestamp (zero elapsed time, so accrue adds no interest) pays back exactly
`amount`, returns the pool total_supplied and custody to their prior values
(the withdraw decrements total_supplied by exactly the supplied amount),
and the LP record is destroyed by the close = signer constraint, so the
result carries only the pool state and the payout. -/
theorem c8_supply_withdraw_roundtrip (pool : PoolState) (signer : Nat)
    (now lu : Int) (amount : Nat)
    (hsup : pool.vault.total_supplied + amount ≤ u64Max) :
    ∃ s1 lp1,
      Supply.supply pool ⟨0, 0, 0, lu⟩ signer now amount = .ok (s1, lp1) ∧
      s1.vault.total_supplied = pool.vault.total_supplied + amount ∧
      Withdraw.withdraw s1 lp1 now =
        .ok (⟨{ s1.vault with total_supplied := pool.vault.total_supplied },
              pool.custody⟩, amount) := by
  have hamt : amount ≤ u64Max := by omega
  refine ⟨⟨{ pool.vault with total_supplied := pool.vault.total_supplied + amount },
      pool.custody + amount⟩, ⟨signer, amount, 0, now⟩, ?_, rfl, ?_⟩
  · unfold Supply.supply
    have hrr : Supply.refresh_record ⟨0, 0, 0, lu⟩ signer
        pool.vault.interest_rate_bps now = ⟨signer, 0, 0, now⟩ := rfl
    rw [hrr]
    dsimp only []
    have h1 : checked_add (0 : Nat) amount = some amount := by
      unfold checked_add
      rw [if_pos (by omega)]
      norm_num
    rw [h1]
    dsimp only []
    have h2 : checked_add pool.vault.total_supplied amount =
        some (pool.vault.total_supplied + amount) := by
      unfold checked_add
      rw [if_pos hsup]
    rw [h2]
  · unfold Withdraw.withdraw
    dsimp only []
    have hacc : LpPosition.accrue_interest ⟨signer, amount, 0, now⟩
        pool.vault.interest_rate_bps now = ⟨signer, amount, 0, now⟩ := by
      unfold LpPosition.accrue_interest saturating_mul_u128 saturating_add
      simp
    rw [hacc]
    have hclaim : (⟨signer, amount, 0, now⟩ : LpPosition).claimable = amount := by
      simp only [LpPosition.claimable, saturating_add]
      omega
    rw [hclaim]
    rw [if_pos (by omega)]
    have h3 : checked_sub (pool.vault.total_supplied + amount) amount =
        some pool.vault.total_supplied := by
      unfold checked_sub
      rw [if_pos (by omega)]
      norm_num
    rw [h3]
    dsimp only []
    simp [Nat.add_sub_cancel]

/-- Witness for C8: a pool with supplied 100 and custody 100 takes a fresh
supply of 40 at time 50 and returns exactly 40 on an immediate withdraw. -/
theorem c8_supply_withdraw_roundtrip_witness :
    ∃ s1 lp1,
      Supply.supply ⟨⟨0, 100, 0, 30, 5⟩, 100⟩ ⟨0, 0, 0, 0⟩ 1 50 40 = .ok (s1, lp1) ∧
      s1.vault.total_supplied = (⟨⟨0, 100, 0, 30, 5⟩, 100⟩ : PoolState).vault.total_supplied + 40 ∧
      Withdraw.withdraw s1 lp1 50 =
        .ok (⟨{ s1.vault with total_supplied :=
                  (⟨⟨0, 100, 0, 30, 5⟩, 100⟩ : PoolState).vault.total_supplied },
              (⟨⟨0, 100, 0, 30, 5⟩, 100⟩ : PoolState).custody⟩, 40) :=
  c8_supply_withdraw_roundtrip ⟨⟨0, 100, 0, 30, 5⟩, 100⟩ 1 50 0 40 (by decide)

end Metlev
